import Mathlib

/-!
Shallow embedding of `src/music_player.py`, a hand-gesture music player.

The embedding covers the parts of the program that the claims are about:
* the landmark data model (21 points per detected hand),
* the gesture classifiers `is_wave_left`, `is_wave_right`,
  `is_volume_control_gesture`, `is_play_pause_gesture` (lines 167-204),
* the discrete-command arbitration of the main loop: the cooldown-gated
  wave / play-pause branches (lines 243-272), iterated over the hands of a
  frame and over a sequence of frames,
* the `np.interp` volume mapping (lines 291-298),
* startup track loading (lines 41-53).

Real-valued quantities (normalized coordinates, timestamps, decibel
levels) are embedded as rationals; the Python `%` on integers with a
positive modulus is `Int.emod` (both give a result in `[0, n)`).
-/

/-- One mediapipe landmark: normalized (x, y) coordinates. -/
structure Point where
  x : ℚ
  y : ℚ

/-- A detected hand: 21 landmarks, indexed as in the source
(0 = wrist, 4 = thumb tip, 8/12/16/20 = index/middle/ring/pinky tips,
6/10/14/18 the corresponding proximal joints). The Python access
`landmarks.landmark[i]` becomes `landmarks.landmark i`. -/
structure HandLandmarks where
  landmark : Fin 21 → Point

/-- Line 120: `cooldown_time = 1.0`. -/
def cooldown_time : ℚ := 1

/-- Line 190: `gesture_cooldown = 1`. -/
def gesture_cooldown : ℚ := 1

/-- Line 124: `message_duration = 1`. -/
def message_duration : ℚ := 1

/-- Lines 167-170: all five fingertips strictly left of `wrist.x - 0.1`. -/
def is_wave_left (landmarks : HandLandmarks) : Bool :=
  let wrist := landmarks.landmark 0
  let finger_tips := [landmarks.landmark 4, landmarks.landmark 8,
    landmarks.landmark 12, landmarks.landmark 16, landmarks.landmark 20]
  finger_tips.all fun tip => decide (tip.x < wrist.x - 1/10)

/-- Lines 173-176: all five fingertips strictly right of `wrist.x + 0.1`. -/
def is_wave_right (landmarks : HandLandmarks) : Bool :=
  let wrist := landmarks.landmark 0
  let finger_tips := [landmarks.landmark 4, landmarks.landmark 8,
    landmarks.landmark 12, landmarks.landmark 16, landmarks.landmark 20]
  finger_tips.all fun tip => decide (tip.x > wrist.x + 1/10)

/-- Lines 179-186: index up, thumb inward, middle/ring/pinky tips below
their proximal joints (larger y = lower on screen). -/
def is_volume_control_gesture (landmarks : HandLandmarks) : Bool :=
  let index_up := decide ((landmarks.landmark 8).y < (landmarks.landmark 6).y)
  let thumb_up := decide ((landmarks.landmark 4).x < (landmarks.landmark 3).x)
  let middle_down := decide ((landmarks.landmark 12).y > (landmarks.landmark 10).y)
  let ring_down := decide ((landmarks.landmark 16).y > (landmarks.landmark 14).y)
  let pinky_down := decide ((landmarks.landmark 20).y > (landmarks.landmark 18).y)
  index_up && thumb_up && middle_down && ring_down && pinky_down

/-- Lines 191-204: thumb tip and index tip touching, and middle/ring/pinky
tips above their proximal joints. The source compares
`math.hypot dx dy < 0.05`; this is embedded as the equivalent
`dx^2 + dy^2 < 0.05^2` to stay inside ℚ (both sides of the source
comparison are nonnegative, so the squared comparison holds iff the
square-root comparison does). -/
def is_play_pause_gesture (landmarks : HandLandmarks) : Bool :=
  let thumb_tip := landmarks.landmark 4
  let index_tip := landmarks.landmark 8
  let touching := decide ((thumb_tip.x - index_tip.x) ^ 2
    + (thumb_tip.y - index_tip.y) ^ 2 < (1/20) ^ 2)
  let middle_up := decide ((landmarks.landmark 12).y < (landmarks.landmark 10).y)
  let ring_up := decide ((landmarks.landmark 16).y < (landmarks.landmark 14).y)
  let pinky_up := decide ((landmarks.landmark 20).y < (landmarks.landmark 18).y)
  touching && middle_up && ring_up && pinky_up

/-- Discrete commands the loop can dispatch (load+play of the next or
previous track, or the play/pause toggle). -/
inductive Command where
  | NextTrack
  | PreviousTrack
  | PlayPauseToggle
deriving DecidableEq

/-- Line 247: `(current_song_index + 1) % len(music_files)`. -/
def next_song_index (i : ℤ) (n : ℕ) : ℤ :=
  (i + 1) % (n : ℤ)

/-- Line 256: `(current_song_index - 1) % len(music_files)`. -/
def previous_song_index (i : ℤ) (n : ℕ) : ℤ :=
  (i - 1) % (n : ℤ)

/-- Mutable state of the loop (lines 51, 117-126, 189), together with the
busy flag of the playback engine, which the source reads through
`pygame.mixer.music.get_busy()`: `play()` makes it true, `pause()` false,
`unpause()` true again, matching the engine contract of the spec. -/
structure LoopState where
  current_song_index : ℤ
  last_wave_time : ℚ
  last_gesture_time : ℚ
  busy : Bool
  current_message : String
  message_start_time : ℚ

/-- Lines 51, 121, 125-126, 189: index 0, timestamps 0, no message; the
mixer has loaded a track but is not yet playing. -/
def initState : LoopState :=
  { current_song_index := 0
    last_wave_time := 0
    last_gesture_time := 0
    busy := false
    current_message := ""
    message_start_time := 0 }

/-- Lines 264-272: the play/pause branch body. `get_busy()` true means
playing, so pause and show "Paused"; otherwise unpause and show
"Playing". Both cases then set `message_start_time` and
`last_gesture_time` to the current time. -/
def play_pause_branch (current_time : ℚ) (s : LoopState) : LoopState :=
  if s.busy then
    { s with busy := false, current_message := "Paused",
             message_start_time := current_time,
             last_gesture_time := current_time }
  else
    { s with busy := true, current_message := "Playing",
             message_start_time := current_time,
             last_gesture_time := current_time }

/-- Lines 243-272: the discrete-gesture part of the per-hand loop body,
where `n` is `len(music_files)`. Everything is nested under the shared
wave-cooldown check `current_time - last_wave_time > cooldown_time`; the
branches are tried in source order (wave left, wave right, play/pause),
and the play/pause branch additionally requires its own cooldown. The
returned `Option Command` records which discrete command, if any, was
accepted for this hand. (The volume section, lines 274-300, writes only
`last_volume` and display values and reads none of the state used here;
it is embedded separately as `new_volume` / `volPer` below.) -/
def processHand (n : ℕ) (current_time : ℚ) (s : LoopState)
    (hand_landmark : HandLandmarks) : LoopState × Option Command :=
  if current_time - s.last_wave_time > cooldown_time then
    if is_wave_left hand_landmark then
      ({ s with current_song_index := next_song_index s.current_song_index n,
                busy := true,
                current_message := "Next Song",
                message_start_time := current_time,
                last_wave_time := current_time }, some Command.NextTrack)
    else if is_wave_right hand_landmark then
      ({ s with current_song_index := previous_song_index s.current_song_index n,
                busy := true,
                current_message := "Previous Song",
                message_start_time := current_time,
                last_wave_time := current_time }, some Command.PreviousTrack)
    else if is_play_pause_gesture hand_landmark
        ∧ current_time - s.last_gesture_time > gesture_cooldown then
      (play_pause_branch current_time s, some Command.PlayPauseToggle)
    else (s, none)
  else (s, none)

/-- Lines 238-272: fold `processHand` over the detected hands of one
frame, in iteration order, collecting the accepted discrete commands. -/
def processFrame (n : ℕ) (current_time : ℚ) (s : LoopState) :
    List HandLandmarks → LoopState × List Command
  | [] => (s, [])
  | h :: rest =>
    let r1 := processHand n current_time s h
    let r2 := processFrame n current_time r1.1 rest
    (r2.1, r1.2.toList ++ r2.2)

/-- Lines 303-307: after the hands are processed, a nonempty message older
than `message_duration` is cleared. -/
def clear_expired_message (current_time : ℚ) (s : LoopState) : LoopState :=
  if s.current_message ≠ ""
      ∧ current_time - s.message_start_time < message_duration then s
  else { s with current_message := "" }

/-- One iteration of the `while True` loop (lines 217-318), restricted to
the state the claims are about: a frame is a capture time together with
the list of hands the detector reports in it. -/
def stepFrame (n : ℕ) (s : LoopState) (frame : ℚ × List HandLandmarks) :
    LoopState × List Command :=
  let r := processFrame n frame.1 s frame.2
  (clear_expired_message frame.1 r.1, r.2)

/-- Iteration of the loop over a finite sequence of frames, collecting all
accepted discrete commands in order. -/
def runFrames (n : ℕ) : LoopState → List (ℚ × List HandLandmarks) →
    LoopState × List Command
  | s, [] => (s, [])
  | s, frame :: rest =>
    let r1 := stepFrame n s frame
    let r2 := runFrames n r1.1 rest
    (r2.1, r1.2 ++ r2.2)

/-- Two-point version of `np.interp x [x0, x1] [y0, y1]`: clamps below
`x0` to `y0`, above `x1` to `y1`, and interpolates linearly between. -/
def interp (x x0 x1 y0 y1 : ℚ) : ℚ :=
  if x ≤ x0 then y0
  else if x1 ≤ x then y1
  else y0 + (x - x0) * (y1 - y0) / (x1 - x0)

/-- Line 292: `np.interp(length, [30, 250], [minVol, maxVol])`. -/
def new_volume (length minVol maxVol : ℚ) : ℚ :=
  interp length 30 250 minVol maxVol

/-- Truncation toward zero, as the Python `int(...)` conversion does. -/
def int_trunc (q : ℚ) : ℤ :=
  if 0 ≤ q then ⌊q⌋ else ⌈q⌉

/-- Line 298: `volPer = int(np.interp(length, [30, 250], [0, 100]))`. -/
def volPer (length : ℚ) : ℤ :=
  int_trunc (interp length 30 250 0 100)

/-- Lines 41-53: the extension-filtered, sorted track list is indexed at
`current_song_index = 0`; on an empty list Python raises `IndexError`
there, before the loop is reached, so startup is fallible. On success the
loaded track and the initial loop state of line 217 onward are
produced. -/
def startup (music_files : List String) : Option (String × LoopState) :=
  match music_files.get? 0 with
  | none => none
  | some track => some (track, initState)

/-- Whole program on a frame sequence: startup, then the frame loop.
A `none` result means the process aborted before the loop was entered. -/
def run_program (music_files : List String)
    (frames : List (ℚ × List HandLandmarks)) :
    Option (LoopState × List Command) :=
  match startup music_files with
  | none => none
  | some r => some (runFrames music_files.length r.2 frames)

/-- Concrete hand with all five fingertips well to the left of the wrist:
satisfies `is_wave_left` and no other classifier used by the claims. -/
def waveLeftHand : HandLandmarks :=
  ⟨fun i => if i.val = 0 then ⟨9/10, 1/2⟩ else ⟨1/10, 1/2⟩⟩

/-- Concrete hand with all five fingertips well to the right of the
wrist: satisfies `is_wave_right`. -/
def waveRightHand : HandLandmarks :=
  ⟨fun i => if i.val = 0 then ⟨1/10, 1/2⟩ else ⟨9/10, 1/2⟩⟩

/-- Concrete OK-sign hand: thumb tip and index tip coincide, middle, ring
and pinky tips are above their proximal joints; satisfies
`is_play_pause_gesture` and neither wave classifier. -/
def okHand : HandLandmarks :=
  ⟨fun i =>
    if i.val = 0 then ⟨1/2, 9/10⟩
    else if i.val = 12 ∨ i.val = 16 ∨ i.val = 20 then ⟨1/2, 3/10⟩
    else if i.val = 10 ∨ i.val = 14 ∨ i.val = 18 then ⟨1/2, 3/5⟩
    else ⟨1/2, 1/2⟩⟩

/-- Concrete hand with every fingertip exactly at `wrist.x - 0.1`: the
boundary case of the wave-left margin. -/
def boundaryHand : HandLandmarks :=
  ⟨fun i => if i.val = 0 then ⟨1/2, 1/2⟩ else ⟨2/5, 1/2⟩⟩

/-- Predicate for the track-changing commands (the two wave classes). -/
def is_track_command : Command → Bool
  | Command.NextTrack => true
  | Command.PreviousTrack => true
  | Command.PlayPauseToggle => false

/-- Predicate for the play/pause toggle command. -/
def is_play_pause_command : Command → Bool
  | Command.PlayPauseToggle => true
  | _ => false

lemma processFrame_cons (n : ℕ) (t : ℚ) (s : LoopState) (h : HandLandmarks)
    (rest : List HandLandmarks) :
    processFrame n t s (h :: rest) =
      ((processFrame n t (processHand n t s h).1 rest).1,
       (processHand n t s h).2.toList
         ++ (processFrame n t (processHand n t s h).1 rest).2) := rfl

lemma processHand_blocked (n : ℕ) (t : ℚ) (s : LoopState) (h : HandLandmarks)
    (hcool : ¬ t - s.last_wave_time > cooldown_time) :
    processHand n t s h = (s, none) := by
  simp [processHand, hcool]

lemma processFrame_blocked (n : ℕ) (t : ℚ) (s : LoopState)
    (hands : List HandLandmarks)
    (hcool : ¬ t - s.last_wave_time > cooldown_time) :
    processFrame n t s hands = (s, []) := by
  induction hands with
  | nil => rfl
  | cons h rest ih =>
    rw [processFrame_cons, processHand_blocked n t s h hcool]
    simp [ih]

lemma play_pause_branch_fields (t : ℚ) (s : LoopState) :
    (play_pause_branch t s).last_gesture_time = t ∧
    (play_pause_branch t s).last_wave_time = s.last_wave_time ∧
    (play_pause_branch t s).current_song_index = s.current_song_index := by
  by_cases hb : s.busy <;> simp [play_pause_branch, hb]

lemma processHand_ppBlocked (n : ℕ) (t : ℚ) (s : LoopState) (h : HandLandmarks)
    (hg : ¬ t - s.last_gesture_time > gesture_cooldown) :
    (processHand n t s h).2 ≠ some Command.PlayPauseToggle ∧
    (processHand n t s h).1.last_gesture_time = s.last_gesture_time := by
  by_cases hcool : t - s.last_wave_time > cooldown_time
  · by_cases hwl : is_wave_left h
    · simp [processHand, hcool, hwl]
    · by_cases hwr : is_wave_right h
      · simp [processHand, hcool, hwl, hwr]
      · simp [processHand, hcool, hwl, hwr, hg]
  · simp [processHand, hcool]

lemma processFrame_ppBlocked (n : ℕ) (t : ℚ) (hands : List HandLandmarks) :
    ∀ s : LoopState, ¬ t - s.last_gesture_time > gesture_cooldown →
    Command.PlayPauseToggle ∉ (processFrame n t s hands).2 ∧
    (processFrame n t s hands).1.last_gesture_time = s.last_gesture_time := by
  induction hands with
  | nil => intro s _; simp [processFrame]
  | cons h rest ih =>
    intro s hg
    have hh := processHand_ppBlocked n t s h hg
    have hg2 : ¬ t - (processHand n t s h).1.last_gesture_time > gesture_cooldown := by
      rw [hh.2]; exact hg
    have hr := ih (processHand n t s h).1 hg2
    rw [processFrame_cons]
    refine ⟨?_, ?_⟩
    · intro hmem
      rcases List.mem_append.mp hmem with hc | hc
      · rw [Option.mem_toList, Option.mem_def] at hc
        exact hh.1 hc
      · exact hr.1 hc
    · exact hr.2.trans hh.2

lemma processHand_waveLeft (n : ℕ) (t : ℚ) (s : LoopState) (h : HandLandmarks)
    (hcool : t - s.last_wave_time > cooldown_time)
    (hwl : is_wave_left h = true) :
    processHand n t s h =
      ({ s with current_song_index := next_song_index s.current_song_index n,
                busy := true,
                current_message := "Next Song",
                message_start_time := t,
                last_wave_time := t }, some Command.NextTrack) := by
  simp [processHand, hcool, hwl]

lemma processHand_waveRight (n : ℕ) (t : ℚ) (s : LoopState) (h : HandLandmarks)
    (hcool : t - s.last_wave_time > cooldown_time)
    (hwl : ¬ is_wave_left h = true)
    (hwr : is_wave_right h = true) :
    processHand n t s h =
      ({ s with current_song_index := previous_song_index s.current_song_index n,
                busy := true,
                current_message := "Previous Song",
                message_start_time := t,
                last_wave_time := t }, some Command.PreviousTrack) := by
  simp [processHand, hcool, hwl, hwr]

lemma processHand_pp (n : ℕ) (t : ℚ) (s : LoopState) (h : HandLandmarks)
    (hcool : t - s.last_wave_time > cooldown_time)
    (hwl : ¬ is_wave_left h = true)
    (hwr : ¬ is_wave_right h = true)
    (hpp : is_play_pause_gesture h = true)
    (hg : t - s.last_gesture_time > gesture_cooldown) :
    processHand n t s h = (play_pause_branch t s, some Command.PlayPauseToggle) := by
  simp [processHand, hcool, hwl, hwr, hpp, hg]

lemma processHand_none (n : ℕ) (t : ℚ) (s : LoopState) (h : HandLandmarks)
    (hcool : t - s.last_wave_time > cooldown_time)
    (hwl : ¬ is_wave_left h = true)
    (hwr : ¬ is_wave_right h = true)
    (hpp : ¬ (is_play_pause_gesture h = true ∧ t - s.last_gesture_time > gesture_cooldown)) :
    processHand n t s h = (s, none) := by
  simp only [processHand, if_pos hcool]
  rw [if_neg, if_neg, if_neg]
  · exact hpp
  · exact hwr
  · exact hwl

lemma cooldown_not_elapsed_same_time (t : ℚ) : ¬ t - t > cooldown_time := by
  norm_num [cooldown_time]

lemma gesture_cooldown_not_elapsed_same_time (t : ℚ) :
    ¬ t - t > gesture_cooldown := by
  norm_num [gesture_cooldown]

/-- C2 (amended). Per frame, across all hands, at most one track command
(NextTrack or PreviousTrack) and at most one PlayPauseToggle are accepted:
an accepted wave blocks every later discrete command of the frame, while
an accepted play-pause blocks only later play-pause commands, so up to two
discrete commands can be accepted in one frame. -/
theorem c2_amended_thm (n : ℕ) (t : ℚ) (s : LoopState)
    (hands : List HandLandmarks) :
    (processFrame n t s hands).2.countP is_track_command ≤ 1 ∧
    (processFrame n t s hands).2.countP is_play_pause_command ≤ 1 := by
  induction hands generalizing s with
  | nil => simp [processFrame]
  | cons h rest ih =>
    by_cases hcool : t - s.last_wave_time > cooldown_time
    · by_cases hwl : is_wave_left h = true
      · rw [processFrame_cons, processHand_waveLeft n t s h hcool hwl,
          processFrame_blocked n t _ rest (by simpa using cooldown_not_elapsed_same_time t)]
        simp [is_track_command, is_play_pause_command]
      · by_cases hwr : is_wave_right h = true
        · rw [processFrame_cons, processHand_waveRight n t s h hcool hwl hwr,
            processFrame_blocked n t _ rest (by simpa using cooldown_not_elapsed_same_time t)]
          simp [is_track_command, is_play_pause_command]
        · by_cases hpp : is_play_pause_gesture h = true ∧ t - s.last_gesture_time > gesture_cooldown
          · rw [processFrame_cons, processHand_pp n t s h hcool hwl hwr hpp.1 hpp.2]
            have hlg : (play_pause_branch t s).last_gesture_time = t :=
              (play_pause_branch_fields t s).1
            have hrest := processFrame_ppBlocked n t rest (play_pause_branch t s)
              (by rw [hlg]; exact gesture_cooldown_not_elapsed_same_time t)
            have hcount0 : (processFrame n t (play_pause_branch t s) rest).2.countP
                is_play_pause_command = 0 := by
              rw [List.countP_eq_zero]
              intro c hc hcp
              cases c with
              | NextTrack => simp [is_play_pause_command] at hcp
              | PreviousTrack => simp [is_play_pause_command] at hcp
              | PlayPauseToggle => exact hrest.1 hc
            have htrack := (ih (play_pause_branch t s)).1
            constructor
            · simpa [is_track_command] using htrack
            · simp [is_play_pause_command, hcount0]
          · rw [processFrame_cons, processHand_none n t s h hcool hwl hwr hpp]
            simpa using ih s
    · rw [processFrame_blocked n t s (h :: rest) hcool]
      simp

lemma processFrame_pp_gating (n : ℕ) (t : ℚ) (hands : List HandLandmarks) :
    ∀ s : LoopState, Command.PlayPauseToggle ∈ (processFrame n t s hands).2 →
      t - s.last_wave_time > cooldown_time ∧
      t - s.last_gesture_time > gesture_cooldown := by
  induction hands with
  | nil => intro s hmem; simp [processFrame] at hmem
  | cons h rest ih =>
    intro s hmem
    by_cases hcool : t - s.last_wave_time > cooldown_time
    · by_cases hwl : is_wave_left h = true
      · rw [processFrame_cons, processHand_waveLeft n t s h hcool hwl,
          processFrame_blocked n t _ rest
            (by simpa using cooldown_not_elapsed_same_time t)] at hmem
        simp at hmem
      · by_cases hwr : is_wave_right h = true
        · rw [processFrame_cons, processHand_waveRight n t s h hcool hwl hwr,
            processFrame_blocked n t _ rest
              (by simpa using cooldown_not_elapsed_same_time t)] at hmem
          simp at hmem
        · by_cases hpp : is_play_pause_gesture h = true ∧
              t - s.last_gesture_time > gesture_cooldown
          · exact ⟨hcool, hpp.2⟩
          · rw [processFrame_cons, processHand_none n t s h hcool hwl hwr hpp] at hmem
            simp only [Option.toList_none, List.nil_append] at hmem
            exact ih s hmem
    · rw [processFrame_blocked n t s (h :: rest) hcool] at hmem
      simp at hmem

lemma processHand_no_wave (n : ℕ) (t : ℚ) (s : LoopState) (h : HandLandmarks)
    (hwl : ¬ is_wave_left h = true) (hwr : ¬ is_wave_right h = true) :
    (processHand n t s h).1.last_wave_time = s.last_wave_time ∧
    (processHand n t s h).1.current_song_index = s.current_song_index ∧
    (processHand n t s h).2.toList.filter is_track_command = [] := by
  by_cases hcool : t - s.last_wave_time > cooldown_time
  · by_cases hpp : is_play_pause_gesture h = true ∧
        t - s.last_gesture_time > gesture_cooldown
    · rw [processHand_pp n t s h hcool hwl hwr hpp.1 hpp.2]
      refine ⟨(play_pause_branch_fields t s).2.1,
        (play_pause_branch_fields t s).2.2, ?_⟩
      simp [is_track_command]
    · rw [processHand_none n t s h hcool hwl hwr hpp]
      simp
  · rw [processHand_blocked n t s h hcool]
    simp

lemma processFrame_wave_agree (n : ℕ) (t : ℚ) (hands : List HandLandmarks) :
    ∀ s₁ s₂ : LoopState,
    s₁.last_wave_time = s₂.last_wave_time →
    s₁.current_song_index = s₂.current_song_index →
    (processFrame n t s₁ hands).1.last_wave_time
        = (processFrame n t s₂ hands).1.last_wave_time ∧
    (processFrame n t s₁ hands).1.current_song_index
        = (processFrame n t s₂ hands).1.current_song_index ∧
    (processFrame n t s₁ hands).2.filter is_track_command
        = (processFrame n t s₂ hands).2.filter is_track_command := by
  induction hands with
  | nil => intro s₁ s₂ hw hi; exact ⟨hw, hi, rfl⟩
  | cons h rest ih =>
    intro s₁ s₂ hw hi
    by_cases hcool : t - s₁.last_wave_time > cooldown_time
    · by_cases hwl : is_wave_left h = true
      · rw [processFrame_cons, processFrame_cons,
          processHand_waveLeft n t s₁ h hcool hwl,
          processHand_waveLeft n t s₂ h (by rwa [← hw]) hwl,
          processFrame_blocked n t _ rest
            (by simpa using cooldown_not_elapsed_same_time t),
          processFrame_blocked n t _ rest
            (by simpa using cooldown_not_elapsed_same_time t)]
        simp [is_track_command, hi]
      · by_cases hwr : is_wave_right h = true
        · rw [processFrame_cons, processFrame_cons,
            processHand_waveRight n t s₁ h hcool hwl hwr,
            processHand_waveRight n t s₂ h (by rwa [← hw]) hwl hwr,
            processFrame_blocked n t _ rest
              (by simpa using cooldown_not_elapsed_same_time t),
            processFrame_blocked n t _ rest
              (by simpa using cooldown_not_elapsed_same_time t)]
          simp [is_track_command, hi]
        · have k₁ := processHand_no_wave n t s₁ h hwl hwr
          have k₂ := processHand_no_wave n t s₂ h hwl hwr
          have hrec := ih (processHand n t s₁ h).1 (processHand n t s₂ h).1
            (by rw [k₁.1, k₂.1, hw]) (by rw [k₁.2.1, k₂.2.1, hi])
          rw [processFrame_cons, processFrame_cons]
          refine ⟨hrec.1, hrec.2.1, ?_⟩
          simp only [List.filter_append, k₁.2.2, k₂.2.2, List.nil_append]
          exact hrec.2.2
    · have hcool₂ : ¬ t - s₂.last_wave_time > cooldown_time := by rwa [← hw]
      rw [processFrame_blocked n t s₁ (h :: rest) hcool,
        processFrame_blocked n t s₂ (h :: rest) hcool₂]
      exact ⟨hw, hi, rfl⟩

lemma clear_expired_message_fields (t : ℚ) (s : LoopState) :
    (clear_expired_message t s).last_wave_time = s.last_wave_time ∧
    (clear_expired_message t s).current_song_index = s.current_song_index ∧
    (clear_expired_message t s).last_gesture_time = s.last_gesture_time := by
  by_cases hc : s.current_message ≠ ""
      ∧ t - s.message_start_time < message_duration
  · simp [clear_expired_message, hc]
  · simp [clear_expired_message, hc]

lemma runFrames_wave_agree (n : ℕ) (frames : List (ℚ × List HandLandmarks)) :
    ∀ s₁ s₂ : LoopState,
    s₁.last_wave_time = s₂.last_wave_time →
    s₁.current_song_index = s₂.current_song_index →
    (runFrames n s₁ frames).1.last_wave_time
        = (runFrames n s₂ frames).1.last_wave_time ∧
    (runFrames n s₁ frames).1.current_song_index
        = (runFrames n s₂ frames).1.current_song_index ∧
    (runFrames n s₁ frames).2.filter is_track_command
        = (runFrames n s₂ frames).2.filter is_track_command := by
  induction frames with
  | nil => intro s₁ s₂ hw hi; exact ⟨hw, hi, rfl⟩
  | cons f rest ih =>
    intro s₁ s₂ hw hi
    have hframe := processFrame_wave_agree n f.1 f.2 s₁ s₂ hw hi
    have hrec := ih (clear_expired_message f.1 (processFrame n f.1 s₁ f.2).1)
      (clear_expired_message f.1 (processFrame n f.1 s₂ f.2).1)
      (by rw [(clear_expired_message_fields f.1 _).1,
        (clear_expired_message_fields f.1 _).1]; exact hframe.1)
      (by rw [(clear_expired_message_fields f.1 _).2.1,
        (clear_expired_message_fields f.1 _).2.1]; exact hframe.2.1)
    refine ⟨hrec.1, hrec.2.1, ?_⟩
    show ((stepFrame n s₁ f).2 ++ (runFrames n (stepFrame n s₁ f).1 rest).2).filter
        is_track_command
      = ((stepFrame n s₂ f).2 ++ (runFrames n (stepFrame n s₂ f).1 rest).2).filter
        is_track_command
    simp only [List.filter_append, stepFrame]
    rw [hframe.2.2, hrec.2.2]

lemma runFrames_cons (n : ℕ) (s : LoopState) (f : ℚ × List HandLandmarks)
    (rest : List (ℚ × List HandLandmarks)) :
    runFrames n s (f :: rest) =
      ((runFrames n (stepFrame n s f).1 rest).1,
       (stepFrame n s f).2 ++ (runFrames n (stepFrame n s f).1 rest).2) := rfl

lemma stepFrame_def (n : ℕ) (s : LoopState) (f : ℚ × List HandLandmarks) :
    stepFrame n s f =
      (clear_expired_message f.1 (processFrame n f.1 s f.2).1,
       (processFrame n f.1 s f.2).2) := rfl

lemma runFrames_pair_blocked (n : ℕ) (s : LoopState)
    (f1 f2 : ℚ × List HandLandmarks)
    (hcool2 : ¬ f2.1 - (stepFrame n s f1).1.last_wave_time > cooldown_time) :
    (runFrames n s [f1, f2]).2 = (stepFrame n s f1).2 := by
  rw [runFrames_cons, runFrames_cons]
  have h2 : (stepFrame n (stepFrame n s f1).1 f2).2 = [] := by
    rw [stepFrame_def]
    exact congrArg Prod.snd (processFrame_blocked n f2.1 _ f2.2 hcool2)
  simp [h2, runFrames]

lemma is_wave_left_waveLeftHand : is_wave_left waveLeftHand = true := by
  simp +decide [is_wave_left, waveLeftHand] <;> norm_num

lemma is_wave_right_waveLeftHand : is_wave_right waveLeftHand = false := by
  simp +decide [is_wave_right, waveLeftHand] <;> norm_num

lemma is_wave_left_waveRightHand : is_wave_left waveRightHand = false := by
  simp +decide [is_wave_left, waveRightHand] <;> norm_num

lemma is_wave_right_waveRightHand : is_wave_right waveRightHand = true := by
  simp +decide [is_wave_right, waveRightHand] <;> norm_num

lemma is_wave_left_okHand : is_wave_left okHand = false := by
  simp +decide [is_wave_left, okHand] <;> norm_num

lemma is_wave_right_okHand : is_wave_right okHand = false := by
  simp +decide [is_wave_right, okHand] <;> norm_num

lemma is_play_pause_gesture_okHand : is_play_pause_gesture okHand = true := by
  simp +decide [is_play_pause_gesture, okHand] <;> norm_num

lemma is_volume_control_gesture_okHand :
    is_volume_control_gesture okHand = false := by
  simp +decide [is_volume_control_gesture, okHand] <;> norm_num

/-- C1 (amended). The code keeps one shared last-fire timestamp for the two
wave classes and a separate one for play-pause. What does hold: every
wave-side observable (the shared wave timestamp, the track index, and the
subsequence of accepted track commands) is independent of the play-pause
timestamp; and a play-pause command can be accepted in a frame only when
both the time since the last accepted wave exceeds the wave cooldown and
the time since the last accepted play-pause exceeds the play-pause
cooldown. -/
theorem c1_amended_thm :
    (∀ (n : ℕ) (frames : List (ℚ × List HandLandmarks)) (s : LoopState) (g : ℚ),
      (runFrames n { s with last_gesture_time := g } frames).1.last_wave_time
          = (runFrames n s frames).1.last_wave_time ∧
      (runFrames n { s with last_gesture_time := g } frames).1.current_song_index
          = (runFrames n s frames).1.current_song_index ∧
      (runFrames n { s with last_gesture_time := g } frames).2.filter is_track_command
          = (runFrames n s frames).2.filter is_track_command) ∧
    (∀ (n : ℕ) (t : ℚ) (s : LoopState) (hands : List HandLandmarks),
      Command.PlayPauseToggle ∈ (processFrame n t s hands).2 →
        t - s.last_wave_time > cooldown_time ∧
        t - s.last_gesture_time > gesture_cooldown) :=
  ⟨fun n frames s g =>
      runFrames_wave_agree n frames { s with last_gesture_time := g } s rfl rfl,
   fun n t s hands => processFrame_pp_gating n t hands s⟩

lemma firstFrame_prev :
    stepFrame 3 initState (10, [waveRightHand]) =
      (clear_expired_message 10
        { initState with
            current_song_index := previous_song_index initState.current_song_index 3,
            busy := true,
            current_message := "Previous Song",
            message_start_time := 10,
            last_wave_time := 10 },
       [Command.PreviousTrack]) := by
  rw [stepFrame_def]
  rw [show ((10, [waveRightHand]) : ℚ × List HandLandmarks).2 = [waveRightHand] from rfl]
  rw [processFrame_cons,
    processHand_waveRight 3 10 initState waveRightHand
      (by norm_num [initState, cooldown_time])
      (by simp [is_wave_left_waveRightHand])
      is_wave_right_waveRightHand]
  rfl

lemma firstFrame_prev_lwt :
    (stepFrame 3 initState (10, [waveRightHand])).1.last_wave_time = 10 := by
  rw [firstFrame_prev]
  exact (clear_expired_message_fields 10 _).1

/-- C1 (counterexample to the claim as stated). After a wave-right fires at
t = 10, a frame at t = 10.5 produces no command, although play-pause never
fired before (elapsed play-pause time 10.5 s exceeds its 1.0 s cooldown)
and although wave-left never fired before: play-pause eligibility and
wave-left eligibility both depend on the shared wave timestamp that the
wave-right firing set. -/
theorem c1_counterexample :
    (runFrames 3 initState [(10, [waveRightHand]), (21/2, [okHand])]).2
        = [Command.PreviousTrack] ∧
    (runFrames 3 initState [(10, [waveRightHand]), (21/2, [waveLeftHand])]).2
        = [Command.PreviousTrack] ∧
    (21/2 : ℚ) - initState.last_gesture_time > gesture_cooldown ∧
    is_play_pause_gesture okHand = true ∧
    is_wave_left waveLeftHand = true := by
  refine ⟨?_, ?_, ?_, is_play_pause_gesture_okHand, is_wave_left_waveLeftHand⟩
  · rw [runFrames_pair_blocked 3 initState _ _
      (by rw [firstFrame_prev_lwt]; norm_num [cooldown_time])]
    rw [firstFrame_prev]
  · rw [runFrames_pair_blocked 3 initState _ _
      (by rw [firstFrame_prev_lwt]; norm_num [cooldown_time])]
    rw [firstFrame_prev]
  · norm_num [initState, gesture_cooldown]

/-- C2 (counterexample to the claim as stated). In a single frame whose
first hand makes the OK sign and whose second hand is a wave-left pose,
both a PlayPauseToggle and a NextTrack are accepted: the play-pause
acceptance does not update the wave timestamp, so the second hand still
fires. -/
theorem c2_counterexample :
    (processFrame 3 10 initState [okHand, waveLeftHand]).2
      = [Command.PlayPauseToggle, Command.NextTrack] := by
  simp +decide [processFrame, processHand, play_pause_branch, initState,
    is_wave_left, is_wave_right, is_play_pause_gesture, okHand, waveLeftHand,
    cooldown_time, gesture_cooldown]
  norm_num

lemma processFrame_single_waveLeft (n : ℕ) (t : ℚ) (s : LoopState)
    (h : HandLandmarks) (hq : is_wave_left h = true)
    (hcool : t - s.last_wave_time > cooldown_time) :
    processFrame n t s [h] =
      ({ s with current_song_index := next_song_index s.current_song_index n,
                busy := true,
                current_message := "Next Song",
                message_start_time := t,
                last_wave_time := t }, [Command.NextTrack]) := by
  rw [processFrame_cons, processHand_waveLeft n t s h hcool hq]
  rfl

lemma stepFrame_single_waveLeft (n : ℕ) (t : ℚ) (s : LoopState)
    (h : HandLandmarks) (hq : is_wave_left h = true)
    (hcool : t - s.last_wave_time > cooldown_time) :
    stepFrame n s (t, [h]) =
      (clear_expired_message t
        { s with current_song_index := next_song_index s.current_song_index n,
                 busy := true,
                 current_message := "Next Song",
                 message_start_time := t,
                 last_wave_time := t },
       [Command.NextTrack]) := by
  rw [stepFrame_def]
  rw [show ((t, [h]) : ℚ × List HandLandmarks).2 = [h] from rfl,
    show ((t, [h]) : ℚ × List HandLandmarks).1 = t from rfl,
    processFrame_single_waveLeft n t s h hq hcool]

lemma stepFrame_single_waveLeft_lwt (n : ℕ) (t : ℚ) (s : LoopState)
    (h : HandLandmarks) (hq : is_wave_left h = true)
    (hcool : t - s.last_wave_time > cooldown_time) :
    (stepFrame n s (t, [h])).1.last_wave_time = t := by
  rw [stepFrame_single_waveLeft n t s h hq hcool]
  exact (clear_expired_message_fields t _).1

/-- C4. From a state whose wave class is armed at time `t1`, two
wave-left-qualifying frames 0.5 s apart yield exactly one NextTrack, and
the same two frames 1.5 s apart yield two NextTrack commands (cooldown
1.0 s). -/
theorem c4_debounce_thm (n : ℕ) (s : LoopState) (t1 : ℚ) (h : HandLandmarks)
    (hq : is_wave_left h = true)
    (harm : t1 - s.last_wave_time > cooldown_time) :
    (runFrames n s [(t1, [h]), (t1 + 1/2, [h])]).2 = [Command.NextTrack] ∧
    (runFrames n s [(t1, [h]), (t1 + 3/2, [h])]).2
      = [Command.NextTrack, Command.NextTrack] := by
  constructor
  · have hblock : ¬ ((t1 + 1/2, [h]) : ℚ × List HandLandmarks).1
        - (stepFrame n s (t1, [h])).1.last_wave_time > cooldown_time := by
      rw [show ((t1 + 1/2, [h]) : ℚ × List HandLandmarks).1 = t1 + 1/2 from rfl,
        stepFrame_single_waveLeft_lwt n t1 s h hq harm,
        show t1 + 1/2 - t1 = 1/2 by ring]
      norm_num [cooldown_time]
    rw [runFrames_pair_blocked n s _ _ hblock,
      stepFrame_single_waveLeft n t1 s h hq harm]
  · rw [runFrames_cons, runFrames_cons]
    have hcool2 : ((t1 + 3/2, [h]) : ℚ × List HandLandmarks).1
        - (stepFrame n s (t1, [h])).1.last_wave_time > cooldown_time := by
      rw [show ((t1 + 3/2, [h]) : ℚ × List HandLandmarks).1 = t1 + 3/2 from rfl,
        stepFrame_single_waveLeft_lwt n t1 s h hq harm,
        show t1 + 3/2 - t1 = 3/2 by ring]
      norm_num [cooldown_time]
    have h2 : (stepFrame n (stepFrame n s (t1, [h])).1 (t1 + 3/2, [h])).2
        = [Command.NextTrack] := by
      rw [stepFrame_def]
      exact congrArg Prod.snd
        (processFrame_single_waveLeft n (t1 + 3/2) _ h hq hcool2)
    have h1 : (stepFrame n s (t1, [h])).2 = [Command.NextTrack] := by
      rw [stepFrame_single_waveLeft n t1 s h hq harm]
    rw [h1, h2]
    simp [runFrames]

/-- C4 witness: the theorem applied at concrete inputs, hypotheses
discharged by evaluation. -/
theorem c4_witness :
    (runFrames 3 initState [(10, [waveLeftHand]), (10 + 1/2, [waveLeftHand])]).2
      = [Command.NextTrack] ∧
    (runFrames 3 initState [(10, [waveLeftHand]), (10 + 3/2, [waveLeftHand])]).2
      = [Command.NextTrack, Command.NextTrack] :=
  c4_debounce_thm 3 initState 10 waveLeftHand is_wave_left_waveLeftHand
    (by norm_num [initState, cooldown_time])

lemma next_song_index_mem (i : ℤ) (n : ℕ) (hn : 0 < n) :
    0 ≤ next_song_index i n ∧ next_song_index i n < (n : ℤ) := by
  have hz : (n : ℤ) ≠ 0 := by positivity
  exact ⟨Int.emod_nonneg _ hz, Int.emod_lt_of_pos _ (by exact_mod_cast hn)⟩

lemma previous_song_index_mem (i : ℤ) (n : ℕ) (hn : 0 < n) :
    0 ≤ previous_song_index i n ∧ previous_song_index i n < (n : ℤ) := by
  have hz : (n : ℤ) ≠ 0 := by positivity
  exact ⟨Int.emod_nonneg _ hz, Int.emod_lt_of_pos _ (by exact_mod_cast hn)⟩

lemma processHand_index_bound (n : ℕ) (t : ℚ) (s : LoopState)
    (h : HandLandmarks) (hn : 0 < n)
    (hs : 0 ≤ s.current_song_index ∧ s.current_song_index < (n : ℤ)) :
    0 ≤ (processHand n t s h).1.current_song_index ∧
    (processHand n t s h).1.current_song_index < (n : ℤ) := by
  by_cases hcool : t - s.last_wave_time > cooldown_time
  · by_cases hwl : is_wave_left h = true
    · rw [processHand_waveLeft n t s h hcool hwl]
      exact next_song_index_mem _ n hn
    · by_cases hwr : is_wave_right h = true
      · rw [processHand_waveRight n t s h hcool hwl hwr]
        exact previous_song_index_mem _ n hn
      · by_cases hpp : is_play_pause_gesture h = true ∧
            t - s.last_gesture_time > gesture_cooldown
        · rw [processHand_pp n t s h hcool hwl hwr hpp.1 hpp.2,
            (play_pause_branch_fields t s).2.2]
          exact hs
        · rw [processHand_none n t s h hcool hwl hwr hpp]
          exact hs
  · rw [processHand_blocked n t s h hcool]
    exact hs

lemma processFrame_index_bound (n : ℕ) (t : ℚ) (hands : List HandLandmarks)
    (hn : 0 < n) : ∀ s : LoopState,
    0 ≤ s.current_song_index → s.current_song_index < (n : ℤ) →
    0 ≤ (processFrame n t s hands).1.current_song_index ∧
    (processFrame n t s hands).1.current_song_index < (n : ℤ) := by
  induction hands with
  | nil => intro s h1 h2; exact ⟨h1, h2⟩
  | cons h rest ih =>
    intro s h1 h2
    rw [processFrame_cons]
    have hh := processHand_index_bound n t s h hn ⟨h1, h2⟩
    exact ih (processHand n t s h).1 hh.1 hh.2

lemma runFrames_index_bound (n : ℕ) (frames : List (ℚ × List HandLandmarks))
    (hn : 0 < n) : ∀ s : LoopState,
    0 ≤ s.current_song_index → s.current_song_index < (n : ℤ) →
    0 ≤ (runFrames n s frames).1.current_song_index ∧
    (runFrames n s frames).1.current_song_index < (n : ℤ) := by
  induction frames with
  | nil => intro s h1 h2; exact ⟨h1, h2⟩
  | cons f rest ih =>
    intro s h1 h2
    rw [runFrames_cons]
    have hf := processFrame_index_bound n f.1 f.2 hn s h1 h2
    have hc := (clear_expired_message_fields f.1 (processFrame n f.1 s f.2).1).2.1
    exact ih (stepFrame n s f).1
      (by rw [show (stepFrame n s f).1
            = clear_expired_message f.1 (processFrame n f.1 s f.2).1 from rfl, hc]
          exact hf.1)
      (by rw [show (stepFrame n s f).1
            = clear_expired_message f.1 (processFrame n f.1 s f.2).1 from rfl, hc]
          exact hf.2)

/-- C10. The track index starts at 0 and, from any in-range index, stays
in [0, n) after any sequence of loop iterations, because every mutation
goes through the modulo-n updates. -/
theorem c10_invariant_thm (n : ℕ) (hn : 0 < n)
    (frames : List (ℚ × List HandLandmarks)) (s : LoopState)
    (h1 : 0 ≤ s.current_song_index) (h2 : s.current_song_index < (n : ℤ)) :
    initState.current_song_index = 0 ∧
    0 ≤ (runFrames n s frames).1.current_song_index ∧
    (runFrames n s frames).1.current_song_index < (n : ℤ) :=
  ⟨rfl, (runFrames_index_bound n frames hn s h1 h2).1,
    (runFrames_index_bound n frames hn s h1 h2).2⟩

/-- C10 witness: the theorem applied at concrete inputs, hypotheses
discharged by evaluation. -/
theorem c10_witness :
    initState.current_song_index = 0 ∧
    0 ≤ (runFrames 3 initState [(10, [waveLeftHand])]).1.current_song_index ∧
    (runFrames 3 initState [(10, [waveLeftHand])]).1.current_song_index
      < ((3 : ℕ) : ℤ) :=
  c10_invariant_thm 3 (by norm_num) [(10, [waveLeftHand])] initState
    (by norm_num [initState]) (by norm_num [initState])

/-- C3 (counterexample to the claim as stated). A hand whose five
fingertips sit exactly at `wrist.x - 0.1` satisfies the non-strict bound
of the claim, yet `is_wave_left` returns false, because the source uses a
strict comparison. -/
theorem c3_counterexample :
    (∀ tip ∈ [boundaryHand.landmark 4, boundaryHand.landmark 8,
      boundaryHand.landmark 12, boundaryHand.landmark 16,
      boundaryHand.landmark 20],
      tip.x ≤ (boundaryHand.landmark 0).x - 1/10) ∧
    is_wave_left boundaryHand = false := by
  constructor
  · simp +decide [boundaryHand] <;> norm_num
  · simp +decide [is_wave_left, boundaryHand] <;> norm_num

/-- C3 (amended). `is_wave_left` returns true iff all five fingertip
x-coordinates are strictly less than `wrist.x - 0.1`; in particular any
single fingertip at or beyond that bound makes it return false. -/
theorem c3_amended_thm (lm : HandLandmarks) :
    is_wave_left lm = true ↔
      ∀ tip ∈ [lm.landmark 4, lm.landmark 8, lm.landmark 12,
        lm.landmark 16, lm.landmark 20],
        tip.x < (lm.landmark 0).x - 1/10 := by
  simp [is_wave_left]

/-- C3 witness: the amended theorem applied at a concrete hand. -/
theorem c3_witness :
    is_wave_left waveLeftHand = true ↔
      ∀ tip ∈ [waveLeftHand.landmark 4, waveLeftHand.landmark 8,
        waveLeftHand.landmark 12, waveLeftHand.landmark 16,
        waveLeftHand.landmark 20],
        tip.x < (waveLeftHand.landmark 0).x - 1/10 :=
  c3_amended_thm waveLeftHand

lemma interp_left (x x0 x1 y0 y1 : ℚ) (hx : x ≤ x0) :
    interp x x0 x1 y0 y1 = y0 := by
  simp [interp, hx]

lemma interp_right (x x0 x1 y0 y1 : ℚ) (h01 : x0 < x1) (hx : x1 ≤ x) :
    interp x x0 x1 y0 y1 = y1 := by
  have h : ¬ x ≤ x0 := by linarith
  simp [interp, h, hx]

lemma interp_ge_left (x x0 x1 y0 y1 : ℚ) (h01 : x0 < x1) (hy : y0 ≤ y1) :
    y0 ≤ interp x x0 x1 y0 y1 := by
  unfold interp
  split_ifs with h1 h2
  · exact le_refl y0
  · exact hy
  · have hnum : 0 ≤ (x - x0) * (y1 - y0) / (x1 - x0) :=
      div_nonneg (mul_nonneg (by linarith) (by linarith)) (by linarith)
    linarith

lemma interp_le_right (x x0 x1 y0 y1 : ℚ) (h01 : x0 < x1) (hy : y0 ≤ y1) :
    interp x x0 x1 y0 y1 ≤ y1 := by
  unfold interp
  split_ifs with h1 h2
  · exact hy
  · exact le_refl y1
  · have key : (x - x0) * (y1 - y0) ≤ (x1 - x0) * (y1 - y0) :=
      mul_le_mul_of_nonneg_right (by linarith) (by linarith)
    have hdiv : (x - x0) * (y1 - y0) / (x1 - x0) ≤ y1 - y0 := by
      rw [div_le_iff (by linarith : (0:ℚ) < x1 - x0)]
      calc (x - x0) * (y1 - y0) ≤ (x1 - x0) * (y1 - y0) := key
        _ = (y1 - y0) * (x1 - x0) := by ring
    linarith

lemma interp_mono (x0 x1 y0 y1 a b : ℚ) (h01 : x0 < x1) (hy : y0 ≤ y1)
    (hab : a ≤ b) : interp a x0 x1 y0 y1 ≤ interp b x0 x1 y0 y1 := by
  by_cases ha : a ≤ x0
  · rw [interp_left a x0 x1 y0 y1 ha]
    exact interp_ge_left b x0 x1 y0 y1 h01 hy
  · by_cases ha2 : x1 ≤ a
    · rw [interp_right a x0 x1 y0 y1 h01 ha2,
        interp_right b x0 x1 y0 y1 h01 (le_trans ha2 hab)]
    · by_cases hb2 : x1 ≤ b
      · rw [interp_right b x0 x1 y0 y1 h01 hb2]
        exact interp_le_right a x0 x1 y0 y1 h01 hy
      · have hb : ¬ b ≤ x0 := by
          have := lt_of_not_le ha
          linarith
        unfold interp
        rw [if_neg ha, if_neg ha2, if_neg hb, if_neg hb2]
        have key : (a - x0) * (y1 - y0) ≤ (b - x0) * (y1 - y0) :=
          mul_le_mul_of_nonneg_right (by linarith) (by linarith)
        have hdiv : (a - x0) * (y1 - y0) / (x1 - x0)
            ≤ (b - x0) * (y1 - y0) / (x1 - x0) :=
          (div_le_div_iff_of_pos_right (by linarith : (0:ℚ) < x1 - x0)).mpr key
        linarith

lemma int_trunc_of_nonneg (q : ℚ) (h : 0 ≤ q) : int_trunc q = ⌊q⌋ :=
  if_pos h

lemma volPer_eq_floor (d : ℚ) : volPer d = ⌊interp d 30 250 0 100⌋ :=
  int_trunc_of_nonneg _ (interp_ge_left d 30 250 0 100 (by norm_num) (by norm_num))

/-- C5. The `np.interp` device-level mapping is monotone (given
`minVol ≤ maxVol`), sends distance 30 to the device minimum and 250 to
the device maximum, and clamps below 30 and above 250 to the endpoint
values; the displayed percentage (the same interpolation onto [0, 100],
truncated to an integer as the source `int(...)` does) is likewise
monotone, hits 0 and 100 at the endpoints, clamps outside [30, 250], and
always lies in [0, 100]. -/
theorem c5_volume_mapping_thm (minVol maxVol : ℚ) (hrange : minVol ≤ maxVol) :
    (∀ d₁ d₂, d₁ ≤ d₂ → new_volume d₁ minVol maxVol ≤ new_volume d₂ minVol maxVol) ∧
    new_volume 30 minVol maxVol = minVol ∧
    new_volume 250 minVol maxVol = maxVol ∧
    (∀ d, d ≤ 30 → new_volume d minVol maxVol = new_volume 30 minVol maxVol) ∧
    (∀ d, 250 ≤ d → new_volume d minVol maxVol = new_volume 250 minVol maxVol) ∧
    (∀ d₁ d₂, d₁ ≤ d₂ → volPer d₁ ≤ volPer d₂) ∧
    volPer 30 = 0 ∧ volPer 250 = 100 ∧
    (∀ d, d ≤ 30 → volPer d = volPer 30) ∧
    (∀ d, 250 ≤ d → volPer d = volPer 250) ∧
    (∀ d, 0 ≤ volPer d ∧ volPer d ≤ 100) := by
  have h30 : (30:ℚ) < 250 := by norm_num
  have hp : (0:ℚ) ≤ 100 := by norm_num
  refine ⟨?_, ?_, ?_, ?_, ?_, ?_, ?_, ?_, ?_, ?_, ?_⟩
  · intro d₁ d₂ hd
    exact interp_mono 30 250 minVol maxVol d₁ d₂ h30 hrange hd
  · exact interp_left 30 30 250 minVol maxVol le_rfl
  · exact interp_right 250 30 250 minVol maxVol h30 le_rfl
  · intro d hd
    unfold new_volume
    rw [interp_left d 30 250 minVol maxVol hd,
      interp_left 30 30 250 minVol maxVol le_rfl]
  · intro d hd
    unfold new_volume
    rw [interp_right d 30 250 minVol maxVol h30 hd,
      interp_right 250 30 250 minVol maxVol h30 le_rfl]
  · intro d₁ d₂ hd
    rw [volPer_eq_floor, volPer_eq_floor]
    exact Int.floor_le_floor (interp_mono 30 250 0 100 d₁ d₂ h30 hp hd)
  · rw [volPer_eq_floor, interp_left 30 30 250 0 100 le_rfl]
    norm_num
  · rw [volPer_eq_floor, interp_right 250 30 250 0 100 h30 le_rfl]
    norm_num
  · intro d hd
    rw [volPer_eq_floor, volPer_eq_floor,
      interp_left d 30 250 0 100 hd, interp_left 30 30 250 0 100 le_rfl]
  · intro d hd
    rw [volPer_eq_floor, volPer_eq_floor,
      interp_right d 30 250 0 100 h30 hd,
      interp_right 250 30 250 0 100 h30 le_rfl]
  · intro d
    constructor
    · rw [volPer_eq_floor]
      exact Int.floor_nonneg.mpr (interp_ge_left d 30 250 0 100 h30 hp)
    · rw [volPer_eq_floor]
      have hle : interp d 30 250 0 100 ≤ 100 := interp_le_right d 30 250 0 100 h30 hp
      have h2 : (⌊interp d 30 250 0 100⌋ : ℚ) ≤ 100 :=
        le_trans (Int.floor_le _) hle
      exact_mod_cast h2

/-- C5 witness: the theorem applied at the default Windows level range
(-65.25 dB, 0 dB), hypothesis discharged by evaluation. -/
theorem c5_witness :
    (∀ d₁ d₂ : ℚ, d₁ ≤ d₂ → new_volume d₁ (-261/4) 0 ≤ new_volume d₂ (-261/4) 0) ∧
    new_volume 30 (-261/4) 0 = -261/4 ∧
    new_volume 250 (-261/4) 0 = 0 ∧
    (∀ d : ℚ, d ≤ 30 → new_volume d (-261/4) 0 = new_volume 30 (-261/4) 0) ∧
    (∀ d : ℚ, 250 ≤ d → new_volume d (-261/4) 0 = new_volume 250 (-261/4) 0) ∧
    (∀ d₁ d₂ : ℚ, d₁ ≤ d₂ → volPer d₁ ≤ volPer d₂) ∧
    volPer 30 = 0 ∧ volPer 250 = 100 ∧
    (∀ d : ℚ, d ≤ 30 → volPer d = volPer 30) ∧
    (∀ d : ℚ, 250 ≤ d → volPer d = volPer 250) ∧
    (∀ d : ℚ, 0 ≤ volPer d ∧ volPer d ≤ 100) :=
  c5_volume_mapping_thm (-261/4) 0 (by norm_num)

/-- C6. An accepted PlayPauseToggle applies exactly the play/pause branch,
whose result is a pure function of the busy state: busy goes to its
negation, the message is "Paused" when the engine was busy and "Playing"
otherwise, and two consecutive toggles produce the two messages in
alternation. -/
theorem c6_playpause_thm (n : ℕ) (t t2 : ℚ) (s : LoopState) (h : HandLandmarks) :
    ((processHand n t s h).2 = some Command.PlayPauseToggle →
      (processHand n t s h).1 = play_pause_branch t s) ∧
    (play_pause_branch t s).busy = !s.busy ∧
    (play_pause_branch t s).current_message
        = (if s.busy then "Paused" else "Playing") ∧
    (play_pause_branch t2 (play_pause_branch t s)).current_message
        = (if s.busy then "Playing" else "Paused") ∧
    (play_pause_branch t2 (play_pause_branch t s)).current_message
        ≠ (play_pause_branch t s).current_message := by
  refine ⟨?_, ?_, ?_, ?_, ?_⟩
  · intro hp
    by_cases hcool : t - s.last_wave_time > cooldown_time
    · by_cases hwl : is_wave_left h = true
      · rw [processHand_waveLeft n t s h hcool hwl] at hp
        simp at hp
      · by_cases hwr : is_wave_right h = true
        · rw [processHand_waveRight n t s h hcool hwl hwr] at hp
          simp at hp
        · by_cases hpp : is_play_pause_gesture h = true ∧
              t - s.last_gesture_time > gesture_cooldown
          · rw [processHand_pp n t s h hcool hwl hwr hpp.1 hpp.2]
          · rw [processHand_none n t s h hcool hwl hwr hpp] at hp
            simp at hp
    · rw [processHand_blocked n t s h hcool] at hp
      simp at hp
  · by_cases hb : s.busy <;> simp [play_pause_branch, hb]
  · by_cases hb : s.busy <;> simp [play_pause_branch, hb]
  · by_cases hb : s.busy <;> simp [play_pause_branch, hb]
  · by_cases hb : s.busy <;> simp [play_pause_branch, hb]

/-- C6 witness: the theorem applied at concrete inputs. -/
theorem c6_witness :
    ((processHand 3 10 initState okHand).2 = some Command.PlayPauseToggle →
      (processHand 3 10 initState okHand).1 = play_pause_branch 10 initState) ∧
    (play_pause_branch 10 initState).busy = !initState.busy ∧
    (play_pause_branch 10 initState).current_message
        = (if initState.busy then "Paused" else "Playing") ∧
    (play_pause_branch 11 (play_pause_branch 10 initState)).current_message
        = (if initState.busy then "Playing" else "Paused") ∧
    (play_pause_branch 11 (play_pause_branch 10 initState)).current_message
        ≠ (play_pause_branch 10 initState).current_message :=
  c6_playpause_thm 3 10 11 initState okHand

/-- C7. For a non-empty track list of length n and an in-range index, the
next-track update wraps n-1 to 0, the previous-track update wraps 0 to
n-1, every other index moves by one, and both updates always land in
[0, n). -/
theorem c7_wraparound_thm (n : ℕ) (i : ℤ) (hn : 0 < n)
    (h0 : 0 ≤ i) (h1 : i < (n : ℤ)) :
    (i = (n : ℤ) - 1 → next_song_index i n = 0) ∧
    (i = 0 → previous_song_index i n = (n : ℤ) - 1) ∧
    (i < (n : ℤ) - 1 → next_song_index i n = i + 1) ∧
    (0 < i → previous_song_index i n = i - 1) ∧
    (0 ≤ next_song_index i n ∧ next_song_index i n < (n : ℤ)) ∧
    (0 ≤ previous_song_index i n ∧ previous_song_index i n < (n : ℤ)) := by
  have hpos : (0:ℤ) < (n : ℤ) := by exact_mod_cast hn
  refine ⟨?_, ?_, ?_, ?_, next_song_index_mem i n hn,
    previous_song_index_mem i n hn⟩
  · intro hi
    subst hi
    unfold next_song_index
    rw [show (n:ℤ) - 1 + 1 = (n:ℤ) by ring]
    exact Int.emod_self
  · intro hi
    subst hi
    unfold previous_song_index
    have hrw : (0:ℤ) - 1 = -1 + (n:ℤ) * 0 := by ring
    have hstep : ((n:ℤ) - 1) % (n:ℤ) = (-1 : ℤ) % (n:ℤ) := by
      conv_lhs => rw [show (n:ℤ) - 1 = -1 + (n:ℤ) * 1 by ring]
      rw [Int.add_mul_emod_self_left]
    rw [show (0:ℤ) - 1 = -1 by ring, ← hstep,
      Int.emod_eq_of_lt (by linarith) (by linarith)]
  · intro hi
    unfold next_song_index
    exact Int.emod_eq_of_lt (by linarith) (by linarith)
  · intro hi
    unfold previous_song_index
    exact Int.emod_eq_of_lt (by linarith) (by linarith)

/-- C7 witness: the theorem applied at n = 3, i = 2, hypotheses discharged
by evaluation. -/
theorem c7_witness :
    ((2:ℤ) = ((3:ℕ) : ℤ) - 1 → next_song_index 2 3 = 0) ∧
    ((2:ℤ) = 0 → previous_song_index 2 3 = ((3:ℕ) : ℤ) - 1) ∧
    ((2:ℤ) < ((3:ℕ) : ℤ) - 1 → next_song_index 2 3 = 2 + 1) ∧
    ((0:ℤ) < 2 → previous_song_index 2 3 = 2 - 1) ∧
    (0 ≤ next_song_index 2 3 ∧ next_song_index 2 3 < ((3:ℕ) : ℤ)) ∧
    (0 ≤ previous_song_index 2 3 ∧ previous_song_index 2 3 < ((3:ℕ) : ℤ)) :=
  c7_wraparound_thm 3 2 (by norm_num) (by norm_num) (by norm_num)

/-- C8. The volume-control pose and the play-pause pose are mutually
exclusive on every landmark set: one requires the middle tip strictly
below its proximal joint, the other strictly above. -/
theorem c8_exclusive_thm (lm : HandLandmarks) :
    (is_volume_control_gesture lm && is_play_pause_gesture lm) = false := by
  by_cases hm : (lm.landmark 12).y < (lm.landmark 10).y
  · have hnot : ¬ ((lm.landmark 12).y > (lm.landmark 10).y) := asymm hm
    simp [is_volume_control_gesture, is_play_pause_gesture, hnot]
  · simp [is_volume_control_gesture, is_play_pause_gesture, hm]

/-- C8 witness: the theorem applied at a concrete hand. -/
theorem c8_witness :
    (is_volume_control_gesture okHand && is_play_pause_gesture okHand) = false :=
  c8_exclusive_thm okHand

/-- C9. With an empty track list, startup aborts (the initial track load
fails) before the frame loop runs, so the whole program yields no loop
result for any frame sequence; and startup fails in this way exactly when
the track list is empty. -/
theorem c9_empty_tracklist_thm :
    (∀ frames : List (ℚ × List HandLandmarks), run_program [] frames = none) ∧
    (∀ music_files : List String,
      startup music_files = none ↔ music_files = []) := by
  constructor
  · intro frames
    rfl
  · intro files
    cases files with
    | nil => simp [startup]
    | cons f rest => simp [startup]

/-- C9 witness: the theorem applied at a concrete frame sequence. -/
theorem c9_witness : run_program [] [(10, [okHand])] = none :=
  c9_empty_tracklist_thm.1 [(10, [okHand])]

/-- C1 witness: the amended theorem applied at concrete inputs. -/
theorem c1_witness :
    ((runFrames 3 { initState with last_gesture_time := 5 }
        [(10, [waveLeftHand])]).1.last_wave_time
      = (runFrames 3 initState [(10, [waveLeftHand])]).1.last_wave_time ∧
     (runFrames 3 { initState with last_gesture_time := 5 }
        [(10, [waveLeftHand])]).1.current_song_index
      = (runFrames 3 initState [(10, [waveLeftHand])]).1.current_song_index ∧
     (runFrames 3 { initState with last_gesture_time := 5 }
        [(10, [waveLeftHand])]).2.filter is_track_command
      = (runFrames 3 initState [(10, [waveLeftHand])]).2.filter is_track_command) ∧
    (Command.PlayPauseToggle ∈ (processFrame 3 10 initState [okHand]).2 →
      (10:ℚ) - initState.last_wave_time > cooldown_time ∧
      (10:ℚ) - initState.last_gesture_time > gesture_cooldown) :=
  ⟨c1_amended_thm.1 3 [(10, [waveLeftHand])] initState 5,
   c1_amended_thm.2 3 10 initState [okHand]⟩
